import Mathlib

/-!
Verification of the Azure Functions Rust language worker dispatcher
(src/azure-functions/src/commands/run.rs) against its specification.

The worker reads `StreamingMessage`s from a bidirectional RPC stream, routes
them by variant, registers functions on `FunctionLoadRequest`, spawns
invocations on `InvocationRequest`, and funnels every outbound message through
a single unbounded channel.  Pure functions below are direct translations of
the handlers in run.rs; the thread-local invocation context (FUNCTION_NAME and
logger::INVOCATION_ID) becomes an explicit `InvocationContext` value threaded
through `invoke_function`.
-/

namespace AzureFunctions

/-- Default value of the FUNCTION_NAME thread-local slot (run.rs `const UNKNOWN`),
also the fallback text for a fault payload that is neither a str nor a String. -/
def UNKNOWN : String := "<unknown>"

/-- Severity of a diagnostic log record (log crate levels; run.rs logs caught
invocation faults with the error macro). -/
inductive Level where
  | error
  | warn
  | info
  | debug
  | trace
  deriving DecidableEq

/-- Status values of `rpc::status_result::Status`. -/
inductive Status where
  | failure
  | cancelled
  | success
  deriving DecidableEq

/-- The `rpc::StatusResult` message: `StatusResult::default()` carries the
Failure status value and an empty result string. -/
structure StatusResult where
  status : Status := .failure
  result : String := ""
  deriving DecidableEq

/-- The part of the protocol function metadata that run.rs reads: its `name`. -/
structure FunctionMetadata where
  name : String
  deriving DecidableEq

/-- The `rpc::FunctionLoadRequest` message: the host-assigned function id and
optional metadata naming the function to bind. -/
structure FunctionLoadRequest where
  function_id : String
  metadata : Option FunctionMetadata
  deriving DecidableEq

/-- The `rpc::FunctionLoadResponse` message. -/
structure FunctionLoadResponse where
  function_id : String
  result : Option StatusResult
  deriving DecidableEq

/-- The `rpc::InvocationRequest` message, restricted to the fields run.rs reads. -/
structure InvocationRequest where
  function_id : String
  invocation_id : String
  deriving DecidableEq

/-- The `rpc::InvocationResponse` message. -/
structure InvocationResponse where
  invocation_id : String
  result : Option StatusResult
  deriving DecidableEq

/-- The `rpc::StartStream` message sent first by the worker. -/
structure StartStream where
  worker_id : String
  deriving DecidableEq

/-- The `rpc::WorkerInitRequest` message from the host. -/
structure WorkerInitRequest where
  host_version : String
  deriving DecidableEq

/-- The `rpc::WorkerInitResponse` message. -/
structure WorkerInitResponse where
  worker_version : String
  result : Option StatusResult
  deriving DecidableEq

/-- The empty `rpc::WorkerStatusRequest` message. -/
structure WorkerStatusRequest where
  deriving DecidableEq

/-- The empty `rpc::WorkerStatusResponse` message. -/
structure WorkerStatusResponse where
  deriving DecidableEq

/-- The `rpc::RpcLog` message produced by the logger sink. -/
structure RpcLog where
  invocation_id : String
  level : Level
  message : String
  deriving DecidableEq

/-- The `streaming_message::Content` tagged union, restricted to the variants
run.rs matches on; the three payload-ignored variants are modelled without
their (unread) payloads. -/
inductive Content where
  | startStream (s : StartStream)
  | workerInitRequest (r : WorkerInitRequest)
  | workerInitResponse (r : WorkerInitResponse)
  | workerStatusRequest (r : WorkerStatusRequest)
  | workerStatusResponse (r : WorkerStatusResponse)
  | functionLoadRequest (r : FunctionLoadRequest)
  | functionLoadResponse (r : FunctionLoadResponse)
  | invocationRequest (r : InvocationRequest)
  | invocationResponse (r : InvocationResponse)
  | rpcLog (l : RpcLog)
  | fileChangeEventRequest
  | invocationCancel
  | functionEnvironmentReloadRequest
  deriving DecidableEq

/-- The `rpc::StreamingMessage` wrapper: an optional content payload. -/
structure StreamingMessage where
  content : Option Content
  deriving DecidableEq

/-- The source location attached to a Rust panic (file, line, column). -/
structure Location where
  file : String
  line : Nat
  column : Nat
  deriving DecidableEq

/-- The information the panic hook in run.rs reads from a caught fault: the
payload downcast as a str slice, the payload downcast as an owned String, the
optional source location, and the rendered backtrace. -/
structure PanicData where
  payload_str : Option String
  payload_string : Option String
  location : Option Location
  backtrace : String
  deriving DecidableEq

/-- Outcome of calling a user invoker under `catch_unwind`: a normal
`InvocationResponse`, or a panic unwound out of the invoker. -/
inductive InvokerOutcome where
  | ok (res : InvocationResponse)
  | panicked (info : PanicData)
  deriving DecidableEq

/-- A function descriptor (`codegen::Function`): a stable name and an optional
invoker.  The invoker body is user code generated by the out-of-scope codegen
crate, opaque to the worker. -/
structure Function where
  name : String
  invoker : Option (String → InvocationRequest → InvokerOutcome)

/-- Modelled from the spec: the `Registry` type lives in registry.rs, which is
not among the sources here (run.rs is only its caller).  Spec section 4.B
describes it as a mapping from `function_id` to a reference to a function
descriptor over a process-wide immutable descriptor set; descriptors are
identified by their stable `name`. -/
structure Registry where
  descriptors : List Function
  bindings : List (String × Function)

/-- Modelled from the spec (section 4.B): `register(function_id, name)` binds
`function_id` to the descriptor whose `name` matches; it returns false if no
descriptor with that name exists or if `function_id` is already bound to a
different descriptor, and idempotent re-registration of the same pair returns
true. -/
def Registry.register (r : Registry) (function_id name : String) : Bool × Registry :=
  match r.descriptors.find? (fun f => f.name == name) with
  | none => (false, r)
  | some f =>
    match r.bindings.find? (fun b => b.1 == function_id) with
    | some b => (b.2.name == name, r)
    | none => (true, { r with bindings := (function_id, f) :: r.bindings })

/-- Modelled from the spec (section 4.B): `get(function_id)` returns the bound
descriptor or absent. -/
def Registry.get (r : Registry) (function_id : String) : Option Function :=
  (r.bindings.find? (fun b => b.1 == function_id)).map (fun b => b.2)

/-- The two thread-local slots run.rs maintains around an invocation:
FUNCTION_NAME (declared in run.rs) and logger::INVOCATION_ID. -/
structure InvocationContext where
  function_name : String
  invocation_id : String
  deriving DecidableEq

/-- Initial thread-local state: FUNCTION_NAME starts as UNKNOWN and the
invocation id slot as the empty string; `invoke_function` also restores
exactly these values on completion. -/
def InvocationContext.initial : InvocationContext :=
  { function_name := UNKNOWN, invocation_id := "" }

/-- A record emitted through the log crate (the error macro in `handle_panic`). -/
structure LogRecord where
  level : Level
  message : String
  deriving DecidableEq

/-- The fault payload coerced to text as in `Run::handle_panic`: the str slice
downcast is preferred, then the String downcast, then UNKNOWN. -/
def panic_payload_text (info : PanicData) : String :=
  match info.payload_str with
  | some s => s
  | none =>
    match info.payload_string with
    | some s => s
    | none => UNKNOWN

/-- `Run::handle_panic`: the installed panic hook formats one error-severity
log record from the FUNCTION_NAME slot, the fault payload, the optional
source location and a fresh backtrace. -/
def handle_panic (function_name : String) (info : PanicData) : LogRecord :=
  match info.location with
  | some loc =>
    { level := .error,
      message := "Azure Function \x27" ++ function_name ++ "\x27 panicked with \x27"
        ++ panic_payload_text info ++ "\x27, " ++ loc.file ++ ":"
        ++ toString loc.line ++ ":" ++ toString loc.column ++ info.backtrace }
  | none =>
    { level := .error,
      message := "Azure Function \x27" ++ function_name ++ "\x27 panicked with \x27"
        ++ panic_payload_text info ++ "\x27" ++ info.backtrace }

/-- Calling the descriptor invoker as `invoke_function` does: a descriptor
without an invoker panics in the expect call (that panic is raised inside the
`catch_unwind` closure, so it surfaces as a fault). -/
def run_invoker (func : Function) (req : InvocationRequest) : InvokerOutcome :=
  match func.invoker with
  | some f => f func.name req
  | none => .panicked
      { payload_str := none,
        payload_string := some "function must have an invoker",
        location := none,
        backtrace := "" }

/-- The thread-local state during an invocation, as set by the two writes at
the top of `Run::invoke_function`: the descriptor name into FUNCTION_NAME and
the request invocation id into INVOCATION_ID (`replace_range` over the whole
string). -/
def invocation_context_during (func : Function) (req : InvocationRequest)
    (ctx : InvocationContext) : InvocationContext :=
  { { ctx with function_name := func.name } with invocation_id := req.invocation_id }

/-- The thread-local state after an invocation, as set by the two writes at
the bottom of `Run::invoke_function`: FUNCTION_NAME back to UNKNOWN and the
invocation id slot cleared. -/
def invocation_context_cleared (ctx : InvocationContext) : InvocationContext :=
  { { ctx with function_name := UNKNOWN } with invocation_id := "" }

/-- `Run::invoke_function`: set the thread-local context, run the invoker under
`catch_unwind` (a fault fires the panic hook, producing one log record, and is
converted into the fixed failure response carrying the invocation id read back
from the INVOCATION_ID slot), clear the context, and send the response. -/
def invoke_function (func : Function) (req : InvocationRequest)
    (ctx : InvocationContext) :
    InvocationContext × List StreamingMessage × List LogRecord :=
  let ctx := invocation_context_during func req ctx
  let out :=
    match run_invoker func req with
    | .ok res => (res, ([] : List LogRecord))
    | .panicked info =>
      ({ invocation_id := ctx.invocation_id,
         result := some
           { status := .failure,
             result := "Azure Function panicked: see log for more information." } },
       [handle_panic ctx.function_name info])
  let ctx := invocation_context_cleared ctx
  (ctx, [{ content := some (.invocationResponse out.1) }], out.2)

/-- What a dispatcher handler does with the outbound sender: either submit a
message to the channel on the dispatcher task, or spawn an invocation task. -/
inductive Effect where
  | sent (msg : StreamingMessage)
  | spawned (func : Function) (req : InvocationRequest)

/-- `Run::handle_function_load_request`: register synchronously and send
exactly one `FunctionLoadResponse` echoing the request's function id. -/
def handle_function_load_request (registry : Registry) (req : FunctionLoadRequest) :
    Registry × List StreamingMessage :=
  match req.metadata with
  | some metadata =>
    match registry.register req.function_id metadata.name with
    | (true, registry) =>
      (registry, [{ content := some (.functionLoadResponse
        { function_id := req.function_id,
          result := some { status := .success, result := "" } }) }])
    | (false, registry) =>
      (registry, [{ content := some (.functionLoadResponse
        { function_id := req.function_id,
          result := some
            { status := .failure,
              result := "Function \x27" ++ metadata.name
                ++ "\x27 does not exist." } }) }])
  | none =>
    (registry, [{ content := some (.functionLoadResponse
      { function_id := req.function_id,
        result := some
          { status := .failure,
            result := "Function load request metadata is missing." } }) }])

/-- `Run::handle_invocation_request`: when the registry binds the function id,
spawn the invocation task and return; otherwise send an immediate failure
response naming the unknown id. -/
def handle_invocation_request (registry : Registry) (req : InvocationRequest) :
    List Effect :=
  match registry.get req.function_id with
  | some func => [.spawned func req]
  | none => [.sent { content := some (.invocationResponse
      { invocation_id := req.invocation_id,
        result := some
          { status := .failure,
            result := "Function with id \x27" ++ req.function_id
              ++ "\x27 does not exist." } }) }]

/-- `Run::handle_worker_status_request`: send one empty `WorkerStatusResponse`. -/
def handle_worker_status_request (_req : WorkerStatusRequest) : List StreamingMessage :=
  [{ content := some (.workerStatusResponse {}) }]

/-- `Run::handle_request`: route one post-init inbound message.  `none` models
the fatal panic on an unexpected variant or absent content; the three
file-change / cancel / environment-reload variants are accepted silently. -/
def handle_request (registry : Registry) (req : StreamingMessage) :
    Option (Registry × List Effect) :=
  match req.content with
  | some (.functionLoadRequest r) =>
    match handle_function_load_request registry r with
    | (registry, msgs) => some (registry, msgs.map .sent)
  | some (.invocationRequest r) => some (registry, handle_invocation_request registry r)
  | some (.workerStatusRequest r) =>
    some (registry, (handle_worker_status_request r).map .sent)
  | some .fileChangeEventRequest => some (registry, [])
  | some .invocationCancel => some (registry, [])
  | some .functionEnvironmentReloadRequest => some (registry, [])
  | _ => none

/-- Run one dispatcher effect to completion: a sent message is already on the
channel; a spawned invocation task runs `invoke_function` on its own thread
whose context slots hold the initial values (they are set before every read
and restored after every invocation). -/
def run_effect (effect : Effect) : List StreamingMessage × List LogRecord :=
  match effect with
  | .sent msg => ([msg], [])
  | .spawned func req =>
    match invoke_function func req InvocationContext.initial with
    | (_, msgs, logs) => (msgs, logs)

/-- Run a list of dispatcher effects in order, concatenating their outbound
messages and log records. -/
def run_effects : List Effect → List StreamingMessage × List LogRecord
  | [] => ([], [])
  | e :: es =>
    match run_effect e, run_effects es with
    | (m, l), (ms, ls) => (m ++ ms, l ++ ls)

/-- Process one post-init inbound message to completion: route it and run the
resulting effects (spawned invocation tasks included).  `none` models the
fatal panic. -/
def step_message (registry : Registry) (msg : StreamingMessage) :
    Option (Registry × List StreamingMessage × List LogRecord) :=
  match handle_request registry msg with
  | none => none
  | some (registry, effects) => some (registry, run_effects effects)

/-- The dispatcher loop (`rpc_receiver.for_each` in `Run::execute`): process
inbound messages in arrival order; a fatal step terminates the worker. -/
def run_loop (registry : Registry) :
    List StreamingMessage → Option (Registry × List StreamingMessage × List LogRecord)
  | [] => some (registry, [], [])
  | m :: ms =>
    match step_message registry m with
    | none => none
    | some (r1, out1, logs1) =>
      match run_loop r1 ms with
      | none => none
      | some (r2, out2, logs2) => some (r2, out1 ++ out2, logs1 ++ logs2)

/-- `Run::handle_worker_init_request`: the first inbound message must be a
`WorkerInitRequest`; the reply carries the build-time crate version (the
CARGO_PKG_VERSION environment value, passed here as `worker_version`) and a
Success status.  Any other content panics.  Installing the logger sink and the
panic hook produces no outbound message and is not modelled. -/
def handle_worker_init_request (worker_version : String) (req : StreamingMessage) :
    Option (List StreamingMessage) :=
  match req.content with
  | some (.workerInitRequest _) =>
    some [{ content := some (.workerInitResponse
      { worker_version := worker_version,
        result := some { status := .success, result := "" } }) }]
  | _ => none

/-- The startup sequence after StartStream in `Run::execute`: take exactly one
message off the inbound stream (`res.expect` panics when the stream is already
closed), handle it as the worker init request, and hand the remaining stream
to the dispatcher loop. -/
def startup (worker_version : String) (inbound : List StreamingMessage) :
    Option (List StreamingMessage × List StreamingMessage) :=
  match inbound with
  | [] => none
  | m :: rest => (handle_worker_init_request worker_version m).map (fun out => (out, rest))

/-- The `InvocationResponse` payloads among a list of outbound messages. -/
def invocation_responses (msgs : List StreamingMessage) : List InvocationResponse :=
  msgs.filterMap (fun m =>
    match m.content with
    | some (.invocationResponse r) => some r
    | _ => none)

/-- Modelled from the spec: the invoker bodies are produced by the out-of-scope
code generation, which answers an InvocationRequest with a response carrying
that request invocation id (spec section 8 invariant: exactly one
InvocationResponse with matching invocation_id). -/
def invoker_preserves_invocation_id (func : Function) : Prop :=
  ∀ (req : InvocationRequest) (res : InvocationResponse),
    run_invoker func req = .ok res → res.invocation_id = req.invocation_id

/-- A sample descriptor whose invoker echoes the request invocation id with a
Success result (the shape the code generation produces). -/
def say_hello : Function :=
  { name := "say_hello",
    invoker := some (fun _ req => .ok
      { invocation_id := req.invocation_id,
        result := some { status := .success, result := "" } }) }

/-- Fault data for a sample invocation fault: a str payload with a location. -/
def boom_data : PanicData :=
  { payload_str := some "boom",
    payload_string := none,
    location := some { file := "src/functions/greet.rs", line := 10, column := 5 },
    backtrace := "\n   0: backtrace" }

/-- A sample descriptor whose invoker faults with payload boom. -/
def greet : Function :=
  { name := "greet", invoker := some (fun _ _ => .panicked boom_data) }

/-- A sample registry with say_hello loaded under id A and greet under id B. -/
def sample_registry : Registry :=
  { descriptors := [say_hello, greet],
    bindings := [("A", say_hello), ("B", greet)] }

/-- C1: For every FunctionLoadRequest handled, exactly one FunctionLoadResponse
is emitted, its function_id equals the request function_id, and its result
status is Success when registration succeeded, Failure with result text
Function <name> does not exist. when registration returned false, and Failure
with result text Function load request metadata is missing. when the request
carries no metadata. -/
theorem function_load_response_exactly_one (registry : Registry)
    (req : FunctionLoadRequest) :
    (handle_function_load_request registry req).2 =
      [{ content := some (.functionLoadResponse
        { function_id := req.function_id,
          result := some
            (match req.metadata with
             | none =>
               { status := .failure,
                 result := "Function load request metadata is missing." }
             | some m =>
               if (registry.register req.function_id m.name).1 then
                 { status := .success, result := "" }
               else
                 { status := .failure,
                   result := "Function \x27" ++ m.name
                     ++ "\x27 does not exist." }) }) }] := by
  cases h : req.metadata with
  | none => simp [handle_function_load_request, h]
  | some m =>
    cases hr : registry.register req.function_id m.name with
    | mk ok r2 => cases ok <;> simp [handle_function_load_request, h, hr]

/-- C3: When an InvocationRequest arrives whose function_id is not bound in the
registry, the dispatcher emits one immediate InvocationResponse with status
Failure and the literal result text Function with id <id> does not exist.,
spawning nothing; when the function_id is bound, one invocation task is
spawned and nothing is sent on the dispatcher task. -/
theorem invocation_dispatch_cases (registry : Registry) (req : InvocationRequest) :
    (registry.get req.function_id = none →
      handle_invocation_request registry req =
        [.sent { content := some (.invocationResponse
          { invocation_id := req.invocation_id,
            result := some
              { status := .failure,
                result := "Function with id \x27" ++ req.function_id
                  ++ "\x27 does not exist." } }) }]) ∧
    (∀ func, registry.get req.function_id = some func →
      handle_invocation_request registry req = [.spawned func req]) := by
  constructor
  · intro h
    simp [handle_invocation_request, h]
  · intro func h
    simp [handle_invocation_request, h]

/-- Witness for C3 at a concrete unregistered id. -/
theorem invocation_dispatch_cases_witness :
    handle_invocation_request sample_registry
        { function_id := "X", invocation_id := "inv-2" } =
      [.sent { content := some (.invocationResponse
        { invocation_id := "inv-2",
          result := some
            { status := .failure,
              result := "Function with id \x27" ++ "X"
                ++ "\x27 does not exist." } }) }] :=
  (invocation_dispatch_cases sample_registry
    { function_id := "X", invocation_id := "inv-2" }).1 rfl

/-- C6: For every invocation, regardless of outcome, invoke_function leaves
both context slots cleared (function name back to UNKNOWN, invocation id back
to the empty string), the slots having held the descriptor name and the
request invocation id from invocation start. -/
theorem invocation_context_lifecycle (func : Function) (req : InvocationRequest)
    (ctx : InvocationContext) :
    (invoke_function func req ctx).1 =
      { function_name := UNKNOWN, invocation_id := "" } ∧
    invocation_context_during func req ctx =
      { function_name := func.name, invocation_id := req.invocation_id } := by
  exact ⟨rfl, rfl⟩

/-- C8: For every WorkerStatusRequest, exactly one empty WorkerStatusResponse
is emitted, on the dispatcher task, ahead of everything produced for later
inbound messages; the registry and the log stream are untouched. -/
theorem worker_status_response_synchronous (registry : Registry)
    (ms : List StreamingMessage) :
    run_loop registry ({ content := some (.workerStatusRequest {}) } :: ms) =
      (run_loop registry ms).map (fun out =>
        (out.1,
         { content := some (.workerStatusResponse {}) } :: out.2.1,
         out.2.2)) := by
  cases h : run_loop registry ms with
  | none =>
    simp [run_loop, step_message, handle_request, handle_worker_status_request,
      run_effects, run_effect, h]
  | some out =>
    obtain ⟨r2, out2, logs2⟩ := out
    simp [run_loop, step_message, handle_request, handle_worker_status_request,
      run_effects, run_effect, h]

/-- C9: After initialization, any inbound message whose variant is not one of
the six routed variants, including a duplicate WorkerInitRequest and a message
with absent content, makes handle_request fatal, while FileChangeEventRequest,
InvocationCancel and FunctionEnvironmentReloadRequest are accepted silently
with no outbound effect and no registry change. -/
theorem post_init_routing_totality (registry : Registry) :
    handle_request registry { content := none } = none ∧
    (∀ r, handle_request registry
      { content := some (.workerInitRequest r) } = none) ∧
    (∀ s, handle_request registry
      { content := some (.startStream s) } = none) ∧
    (∀ r, handle_request registry
      { content := some (.workerInitResponse r) } = none) ∧
    (∀ r, handle_request registry
      { content := some (.workerStatusResponse r) } = none) ∧
    (∀ r, handle_request registry
      { content := some (.functionLoadResponse r) } = none) ∧
    (∀ r, handle_request registry
      { content := some (.invocationResponse r) } = none) ∧
    (∀ l, handle_request registry
      { content := some (.rpcLog l) } = none) ∧
    handle_request registry
      { content := some .fileChangeEventRequest } = some (registry, []) ∧
    handle_request registry
      { content := some .invocationCancel } = some (registry, []) ∧
    handle_request registry
      { content := some .functionEnvironmentReloadRequest } = some (registry, []) := by
  refine ⟨rfl, fun r => rfl, fun s => rfl, fun r => rfl, fun r => rfl, fun r => rfl,
    fun r => rfl, fun l => rfl, rfl, rfl, rfl⟩

/-- C10: A FunctionLoadRequest without metadata leaves the registry untouched
(every binding lookup is unchanged) and only the missing-metadata failure
response is sent. -/
theorem missing_metadata_preserves_registry (registry : Registry)
    (req : FunctionLoadRequest) (h : req.metadata = none) :
    (handle_function_load_request registry req).1 = registry ∧
    (∀ fid, ((handle_function_load_request registry req).1).get fid =
      registry.get fid) ∧
    (handle_function_load_request registry req).2 =
      [{ content := some (.functionLoadResponse
        { function_id := req.function_id,
          result := some
            { status := .failure,
              result := "Function load request metadata is missing." } }) }] := by
  refine ⟨?_, ?_, ?_⟩ <;> simp [handle_function_load_request, h]

/-- C2: For every InvocationRequest consumed from the inbound stream, whether
the function_id is unregistered, the invoker returns normally, or the invoker
faults, exactly one InvocationResponse is submitted to the outbound stream and
its invocation_id equals the request invocation_id; the registry is unchanged. -/
theorem invocation_response_exactly_one (registry : Registry)
    (req : InvocationRequest)
    (h : ∀ func, registry.get req.function_id = some func →
      invoker_preserves_invocation_id func) :
    ∃ out logs,
      step_message registry { content := some (.invocationRequest req) } =
        some (registry, out, logs) ∧
      (invocation_responses out).map (fun r => r.invocation_id) =
        [req.invocation_id] := by
  cases hget : registry.get req.function_id with
  | none =>
    refine ⟨[{ content := some (.invocationResponse
      { invocation_id := req.invocation_id,
        result := some
          { status := .failure,
            result := "Function with id \x27" ++ req.function_id
              ++ "\x27 does not exist." } }) }], [], ?_, ?_⟩
    · simp [step_message, handle_request, handle_invocation_request, hget,
        run_effects, run_effect]
    · simp [invocation_responses]
  | some func =>
    cases hrun : run_invoker func req with
    | ok res =>
      refine ⟨[{ content := some (.invocationResponse res) }], [], ?_, ?_⟩
      · simp [step_message, handle_request, handle_invocation_request, hget,
          run_effects, run_effect, invoke_function, hrun]
      · simp [invocation_responses, h func hget req res hrun]
    | panicked info =>
      refine ⟨[{ content := some (.invocationResponse
        { invocation_id := req.invocation_id,
          result := some
            { status := .failure,
              result := "Azure Function panicked: see log for more information." } }) }],
        [handle_panic func.name info], ?_, ?_⟩
      · simp [step_message, handle_request, handle_invocation_request, hget,
          run_effects, run_effect, invoke_function, hrun,
          invocation_context_during]
      · simp [invocation_responses]

/-- Witness for C2 at a concrete registered echoing function. -/
theorem invocation_response_exactly_one_witness :
    ∃ out logs,
      step_message sample_registry
        { content := some (.invocationRequest
          { function_id := "A", invocation_id := "inv-1" }) } =
        some (sample_registry, out, logs) ∧
      (invocation_responses out).map (fun r => r.invocation_id) = ["inv-1"] := by
  refine invocation_response_exactly_one sample_registry
    { function_id := "A", invocation_id := "inv-1" } ?_
  intro func hf
  have h0 : sample_registry.get "A" = some say_hello := rfl
  rw [h0] at hf
  rw [← Option.some.inj hf]
  intro req res hres
  have h1 : InvokerOutcome.ok
      { invocation_id := req.invocation_id,
        result := some { status := .success, result := "" } } =
      InvokerOutcome.ok res := hres
  injection h1 with h2
  rw [← h2]

/-- C4: When the invoker faults, invoke_function submits one InvocationResponse
carrying the invocation id bound in the context (the request invocation id),
status Failure and the exact fixed result text, together with one
error-severity log record whose message contains the context function name,
the fault payload coerced to text (str payload preferred, then String payload,
falling back to UNKNOWN), the source location when available, and the
backtrace. -/
theorem invocation_fault_response_and_log (func : Function)
    (req : InvocationRequest) (ctx : InvocationContext) (info : PanicData)
    (hrun : run_invoker func req = .panicked info) :
    (invoke_function func req ctx).2 =
      ([{ content := some (.invocationResponse
        { invocation_id := req.invocation_id,
          result := some
            { status := .failure,
              result := "Azure Function panicked: see log for more information." } }) }],
       [handle_panic func.name info]) ∧
    (handle_panic func.name info).level = .error ∧
    (∃ s t, (handle_panic func.name info).message = s ++ func.name ++ t) ∧
    (∃ s t, (handle_panic func.name info).message =
      s ++ panic_payload_text info ++ t) ∧
    (∀ p, info.payload_str = some p → panic_payload_text info = p) ∧
    (∀ p, info.payload_str = none → info.payload_string = some p →
      panic_payload_text info = p) ∧
    (info.payload_str = none → info.payload_string = none →
      panic_payload_text info = UNKNOWN) ∧
    (∀ loc, info.location = some loc →
      ∃ s t, (handle_panic func.name info).message =
        s ++ (loc.file ++ ":" ++ toString loc.line ++ ":" ++ toString loc.column)
          ++ t) ∧
    (∃ s, (handle_panic func.name info).message = s ++ info.backtrace) := by
  refine ⟨?_, ?_, ?_, ?_, ?_, ?_, ?_, ?_, ?_⟩
  · simp [invoke_function, hrun, invocation_context_during]
  · cases hl : info.location <;> simp [handle_panic, hl]
  · cases hl : info.location with
    | none =>
      exact ⟨"Azure Function \x27",
        "\x27 panicked with \x27" ++ panic_payload_text info ++ "\x27"
          ++ info.backtrace,
        by simp [handle_panic, hl, String.append_assoc]⟩
    | some loc =>
      exact ⟨"Azure Function \x27",
        "\x27 panicked with \x27" ++ panic_payload_text info ++ "\x27, "
          ++ loc.file ++ ":" ++ toString loc.line ++ ":" ++ toString loc.column
          ++ info.backtrace,
        by simp [handle_panic, hl, String.append_assoc]⟩
  · cases hl : info.location with
    | none =>
      exact ⟨"Azure Function \x27" ++ func.name ++ "\x27 panicked with \x27",
        "\x27" ++ info.backtrace,
        by simp [handle_panic, hl, String.append_assoc]⟩
    | some loc =>
      exact ⟨"Azure Function \x27" ++ func.name ++ "\x27 panicked with \x27",
        "\x27, " ++ loc.file ++ ":" ++ toString loc.line ++ ":"
          ++ toString loc.column ++ info.backtrace,
        by simp [handle_panic, hl, String.append_assoc]⟩
  · intro p hp
    simp [panic_payload_text, hp]
  · intro p hp hq
    simp [panic_payload_text, hp, hq]
  · intro hp hq
    simp [panic_payload_text, hp, hq]
  · intro loc hl
    exact ⟨"Azure Function \x27" ++ func.name ++ "\x27 panicked with \x27"
        ++ panic_payload_text info ++ "\x27, ",
      info.backtrace,
      by simp [handle_panic, hl, String.append_assoc]⟩
  · cases hl : info.location with
    | none =>
      exact ⟨"Azure Function \x27" ++ func.name ++ "\x27 panicked with \x27"
          ++ panic_payload_text info ++ "\x27",
        by simp [handle_panic, hl, String.append_assoc]⟩
    | some loc =>
      exact ⟨"Azure Function \x27" ++ func.name ++ "\x27 panicked with \x27"
          ++ panic_payload_text info ++ "\x27, " ++ loc.file ++ ":"
          ++ toString loc.line ++ ":" ++ toString loc.column,
        by simp [handle_panic, hl, String.append_assoc]⟩

/-- Witness for C4 at a concrete faulting invoker. -/
theorem invocation_fault_response_and_log_witness :
    (invoke_function greet { function_id := "B", invocation_id := "inv-9" }
      InvocationContext.initial).2.2 = [handle_panic "greet" boom_data] := by
  rw [(invocation_fault_response_and_log greet
    { function_id := "B", invocation_id := "inv-9" }
    InvocationContext.initial boom_data rfl).1]
  rfl

/-- C5: An invocation fault never terminates the worker: a panic raised inside
the invoker is contained by catch_unwind within that one invocation task,
which completes by sending the failure response, and the rest of the trace
(the dispatcher and every other invocation) proceeds exactly as it would
without the faulting request. -/
theorem invocation_fault_contained (registry : Registry) (func : Function)
    (req : InvocationRequest) (info : PanicData) (ms : List StreamingMessage)
    (hget : registry.get req.function_id = some func)
    (hrun : run_invoker func req = .panicked info) :
    run_loop registry ({ content := some (.invocationRequest req) } :: ms) =
      (run_loop registry ms).map (fun out =>
        (out.1,
         { content := some (.invocationResponse
           { invocation_id := req.invocation_id,
             result := some
               { status := .failure,
                 result := "Azure Function panicked: see log for more information." } }) }
           :: out.2.1,
         handle_panic func.name info :: out.2.2)) := by
  cases h : run_loop registry ms with
  | none =>
    simp [run_loop, step_message, handle_request, handle_invocation_request,
      hget, run_effects, run_effect, invoke_function, hrun,
      invocation_context_during, h]
  | some out =>
    obtain ⟨r2, out2, logs2⟩ := out
    simp [run_loop, step_message, handle_request, handle_invocation_request,
      hget, run_effects, run_effect, invoke_function, hrun,
      invocation_context_during, h]

/-- Witness for C5 at a concrete faulting invocation followed by the empty
trace. -/
theorem invocation_fault_contained_witness :
    run_loop sample_registry
      [{ content := some (.invocationRequest
        { function_id := "B", invocation_id := "inv-9" }) }] =
      some (sample_registry,
        [{ content := some (.invocationResponse
          { invocation_id := "inv-9",
            result := some
              { status := .failure,
                result := "Azure Function panicked: see log for more information." } }) }],
        [handle_panic "greet" boom_data]) := by
  rw [invocation_fault_contained sample_registry greet
    { function_id := "B", invocation_id := "inv-9" } boom_data [] rfl rfl]
  rfl

/-- C7: On startup the worker awaits exactly one inbound message after sending
StartStream: an absent message is fatal, a WorkerInitRequest is answered with
one WorkerInitResponse carrying the non-empty worker version and status
Success while the rest of the stream is left for the dispatcher, and any other
variant is fatal. -/
theorem worker_init_handshake (worker_version : String)
    (hv : worker_version ≠ "") :
    startup worker_version [] = none ∧
    (∀ (r : WorkerInitRequest) (rest : List StreamingMessage),
      startup worker_version
          ({ content := some (.workerInitRequest r) } :: rest) =
        some ([{ content := some (.workerInitResponse
          { worker_version := worker_version,
            result := some { status := .success, result := "" } }) }], rest) ∧
      worker_version ≠ "") ∧
    (∀ (m : StreamingMessage) (rest : List StreamingMessage),
      (∀ r, m.content ≠ some (.workerInitRequest r)) →
      startup worker_version (m :: rest) = none) := by
  refine ⟨rfl, fun r rest => ⟨rfl, hv⟩, fun m rest h => ?_⟩
  cases hc : m.content with
  | none => simp [startup, handle_worker_init_request, hc]
  | some c =>
    cases c <;>
      first
        | exact absurd hc (h _)
        | simp [startup, handle_worker_init_request, hc]

/-- Witness for C7 at a concrete handshake. -/
theorem worker_init_handshake_witness :
    startup "0.11.0"
        [{ content := some (.workerInitRequest { host_version := "4.0" }) }] =
      some ([{ content := some (.workerInitResponse
        { worker_version := "0.11.0",
          result := some { status := .success, result := "" } }) }], []) :=
  ((worker_init_handshake "0.11.0" (by decide)).2.1
    { host_version := "4.0" } []).1

/-- Witness for C10 at a concrete metadata-free request. -/
theorem missing_metadata_preserves_registry_witness :
    (handle_function_load_request sample_registry
      { function_id := "C", metadata := none }).1 = sample_registry :=
  (missing_metadata_preserves_registry sample_registry
    { function_id := "C", metadata := none } rfl).1

end AzureFunctions
